import Mathlib

/-!
Shallow embedding of the Modal library (ChaseMoskal/Modal).

The repository renders modal dialog overlays: a full-screen cover element
plus a centered content element, managed by a page-wide ModalRegion whose
container element is inserted as the first child of the document body.
This file embeds the authoritative version of the code (the `Modal` class
with the `ModalOptions` record holding `textContent`, `innerHTML`,
`closeOnCoverClick` and `animationTime`, and the `ModalRegion` class),
together with the `isNested` DOM helper, and proves the specified
properties about them.

Modelling conventions:
  * DOM elements are identified by natural-number ids handed out by a
    monotone allocator (`nextId`); reference identity of elements is id
    equality, sound because every created element receives a fresh id.
  * JavaScript `undefined` for an optional field is `Option.none`.
  * The mutable page (the `window.modalRegion` slot, the children of the
    body and of the region container, the set of created elements) is an
    explicit `PageState` threaded through the operations.
  * `setTimeout` callbacks pending when a function returns are listed
    explicitly, and promise resolution times are returned as values, so
    that ordering and duration claims are statable.
-/

/-- A node in the DOM tree, carrying its id and its full parent chain
(`parentNode` links).  Reference equality of nodes is modelled as id
equality; the allocator hands every created element a distinct id. -/
inductive DomNode where
  | root (id : Nat)
  | node (id : Nat) (parent : DomNode)
deriving DecidableEq, Repr

/-- The id of a DOM node. -/
def DomNode.id : DomNode → Nat
  | .root i => i
  | .node i _ => i

/-- Embedding of `src/dom/isNested`: walk up the parentNode chain of
`descendant`; return true as soon as the walk reaches `ancestor`, false
when the chain ends. -/
def isNested : DomNode → DomNode → Bool
  | .root _, _ => false
  | .node _ p, ancestor => p.id == ancestor.id || isNested p ancestor

/-- The modal content element (`this.content`), created empty by
`createContent` and written by the constructor through `innerText`,
`textContent` and `innerHTML` assignments. -/
structure ContentElement where
  id : Nat
  innerText : String := ""
  textContent : String := ""
  innerHTML : String := ""
deriving DecidableEq, Repr

/-- The cover element (`ModalHtmlElement`): the root element of one modal,
tagged at creation with the expando back-reference `e.modal = this`
(here: the id of the owning Modal instance). -/
structure ModalHtmlElement where
  id : Nat
  modal : Nat
deriving DecidableEq, Repr

/-- The ModalRegion object.  `element` is the id of its container element
(inserted as the first child of the document body); `children` are the
container element's current direct children, in DOM order.  `objId`
models the JavaScript object identity of the region instance. -/
structure ModalRegion where
  objId : Nat
  element : Nat
  children : List ModalHtmlElement := []
deriving DecidableEq, Repr

/-- Embedding of the `ModalRegion.modals` getter: read the container's
direct children in current DOM order and map each child to its owning
Modal through the `child.modal` back-reference.  Recomputed from the
live state on every call — nothing is cached. -/
def ModalRegion.modals (r : ModalRegion) : List Nat :=
  r.children.map (fun c => c.modal)

/-- Embedding of `ModalOptions`.  The four declared optional fields are
`Option`-valued (`none` = the key is absent / `undefined`).
`hasFadeTime` records whether the options object carries a `fadeTime`
key: the key is not part of the declared interface, but the constructor
tests `"fadeTime" in options`, and JavaScript objects may carry keys
beyond the interface, so key presence must be representable. -/
structure ModalOptions where
  textContent : Option String := none
  innerHTML : Option String := none
  closeOnCoverClick : Option Bool := none
  animationTime : Option Nat := none
  hasFadeTime : Bool := false
deriving DecidableEq, Repr

/-- A Modal instance as built by the constructor.  `instId` models the
JavaScript object identity of the instance; `regionObjId` is the object
identity of `this.region`; `closeOnCoverClick` records whether the
cover click handler was attached (the constructor default is true). -/
structure Modal where
  instId : Nat
  regionObjId : Nat
  cover : ModalHtmlElement
  content : ContentElement
  animationTime : Option Nat
  closeOnCoverClick : Bool
deriving DecidableEq, Repr

/-- Whether the appear/disappear animations run: the source tests
`this.animationTime > 0`, which in JavaScript is false when the field is
`undefined`. -/
def Modal.fadeActive (m : Modal) : Bool :=
  match m.animationTime with
  | some t => decide (0 < t)
  | none => false

/-- The mutable page state: the fresh-id allocator, the direct children
of `document.body` (element ids), the `window.modalRegion` slot, the
Modal instances constructed so far (the references held by calling
code, in construction order), and the ids of every element the library
has created (attached or not). -/
structure PageState where
  nextId : Nat := 0
  bodyChildren : List Nat := []
  windowModalRegion : Option ModalRegion := none
  allModals : List Modal := []
  allElems : List Nat := []
deriving DecidableEq, Repr

/-- A page on which no Modal code has run yet; `bs` are the ids of the
pre-existing children of the document body. -/
def initPage (bs : List Nat) : PageState :=
  { nextId := 0, bodyChildren := bs, windowModalRegion := none,
    allModals := [], allElems := [] }

/-- Observable steps of the Modal constructor, in the order they are
performed.  Field initializers run before the constructor body, in
declaration order: region, cover, content. -/
inductive CtorEvent where
  | regionCreated
  | coverCreated
  | contentCreated
  | configError
  | textAssigned
  | htmlAssigned
  | contentAppended
  | handlerAttached
  | appearInitiated
  | coverAppended
deriving DecidableEq, Repr

/-- A callback scheduled with `setTimeout` and still pending when the
scheduling function returns: `appearTick c` is the zero-delay tick of
`appear()` that sets the opacity of cover `c` to 1 and resolves the
appear promise. -/
inductive TimerAction where
  | appearTick (coverId : Nat)
deriving DecidableEq, Repr

/-- Result of running `ModalRegion` acquisition (the `region` field
initializer). -/
structure AcquireResult where
  state : PageState
  region : ModalRegion
  events : List CtorEvent
deriving DecidableEq, Repr

/-- Embedding of the `region` field initializer:
`window.modalRegion || (window.modalRegion = new ModalRegion())`.
`new ModalRegion()` creates the container element, inserts it before the
first child of the document body, and (both in its `element` initializer
context and in its constructor) publishes itself on the window. -/
def acquireRegion (st : PageState) : AcquireResult :=
  match st.windowModalRegion with
  | some r => { state := st, region := r, events := [] }
  | none =>
    let elemId := st.nextId
    let r : ModalRegion := { objId := st.nextId + 1, element := elemId, children := [] }
    { state := { st with
        nextId := st.nextId + 2,
        allElems := st.allElems ++ [elemId],
        bodyChildren := elemId :: st.bodyChildren,
        windowModalRegion := some r },
      region := r,
      events := [CtorEvent.regionCreated] }

/-- Append a cover element to the region container
(`this.region.element.appendChild(this.cover)`); the region object on
the window is the same object as `this.region`. -/
def attachCover (st : PageState) (c : ModalHtmlElement) : PageState :=
  { st with windowModalRegion :=
      st.windowModalRegion.map (fun r => { r with children := r.children ++ [c] }) }

/-- Result of running the Modal constructor: the page state after it
returns, the ordered synchronous events, the `setTimeout` callbacks
still pending at return, and the thrown error or the built instance. -/
structure ConstructResult where
  state : PageState
  events : List CtorEvent
  timers : List (Nat × TimerAction)
  result : Except String Modal
deriving Repr

/-- Embedding of the Modal constructor.  Field initializers run first, in
declaration order: `region` (acquire or create the page region),
`cover` (fresh element with the `e.modal = this` back-reference),
`content` (`createContent()`, a fresh empty element).  Then the body:
the configuration check (`innerHTML !== undefined && textContent !==
undefined` throws), the content assignments (`textContent` branch tests
`!== undefined`; `innerHTML` branch tests truthiness, so an empty
string is not assigned), appending content into the cover, the optional
cover click handler (default on), the animation time
(`("fadeTime" in options) ? options.animationTime : 250`), the
fire-and-forget `appear()` call, and finally appending the cover into
the region container. -/
def Modal.construct (st : PageState) (o : ModalOptions) : ConstructResult :=
  let ar := acquireRegion st
  let instId := ar.state.nextId
  let cover : ModalHtmlElement := { id := ar.state.nextId + 1, modal := instId }
  let content0 : ContentElement := { id := ar.state.nextId + 2 }
  let st2 : PageState := { ar.state with
    nextId := ar.state.nextId + 3,
    allElems := ar.state.allElems ++ [cover.id, content0.id] }
  if o.innerHTML.isSome && o.textContent.isSome then
    { state := st2,
      events := ar.events ++ [CtorEvent.coverCreated, CtorEvent.contentCreated,
        CtorEvent.configError],
      timers := [],
      result := Except.error "Doesn't make sense to provide innerHTML and textContent at the same time – they override each other" }
  else
    let tc := match o.textContent with
      | some t => ({ content0 with innerText := t, textContent := t },
          [CtorEvent.textAssigned])
      | none => (content0, [])
    let hc := match o.innerHTML with
      | some h =>
        if h = "" then (tc.1, ([] : List CtorEvent))
        else ({ tc.1 with innerHTML := h }, [CtorEvent.htmlAssigned])
      | none => (tc.1, [])
    let closeFlag := o.closeOnCoverClick.getD true
    let clickEvents : List CtorEvent :=
      if closeFlag then [CtorEvent.handlerAttached] else []
    let aTime : Option Nat := if o.hasFadeTime then o.animationTime else some 250
    let m : Modal :=
      { instId := instId
        regionObjId := ar.region.objId
        cover := cover
        content := hc.1
        animationTime := aTime
        closeOnCoverClick := closeFlag }
    let evs := ar.events ++ [CtorEvent.coverCreated, CtorEvent.contentCreated]
      ++ tc.2 ++ hc.2 ++ [CtorEvent.contentAppended] ++ clickEvents
      ++ [CtorEvent.appearInitiated, CtorEvent.coverAppended]
    let tms := if m.fadeActive then [(0, TimerAction.appearTick cover.id)] else []
    { state := attachCover st2 cover, events := evs, timers := tms,
      result := Except.ok m }

/-- Result of `appear()`: the style writes performed synchronously before
the promise is returned, the style writes performed later inside the
zero-delay `setTimeout` callback, and whether the returned promise is
already resolved when `appear()` returns (`Promise.resolve()`). -/
structure AppearResult where
  syncStyleWrites : List (String × String)
  deferredStyleWrites : List (String × String)
  resolvedImmediately : Bool
deriving DecidableEq, Repr

/-- Embedding of `Modal.appear`: when `this.animationTime > 0`, write
`opacity: 0` and a transition of that duration, schedule a zero-delay
tick that writes `opacity: 1` and resolves; otherwise return an already
resolved promise with no style write at all. -/
def Modal.appear (m : Modal) : AppearResult :=
  if m.fadeActive then
    { syncStyleWrites := [("opacity", "0"),
        ("transition", "opacity " ++ toString (m.animationTime.getD 0) ++ "ms ease")]
      deferredStyleWrites := [("opacity", "1")]
      resolvedImmediately := false }
  else
    { syncStyleWrites := []
      deferredStyleWrites := []
      resolvedImmediately := true }

/-- Resolution time of the promise returned by `Modal.disappear` when the
call is made at time `now`: with `this.animationTime > 0` the promise
resolves via `setTimeout(resolve, this.animationTime)`; otherwise it is
already resolved. -/
def Modal.disappearTime (now : Nat) (m : Modal) : Nat :=
  if m.fadeActive then now + m.animationTime.getD 0 else now

/-- Embedding of `this.cover.remove()`: detach the cover element from its
parent.  Its only possible parent is the region container; when the
element is already detached, `remove()` is a no-op.  In the DOM a node
occurs at most once in a child list, so removal erases the single
matching child. -/
def removeCover (st : PageState) (coverId : Nat) : PageState :=
  { st with windowModalRegion :=
      st.windowModalRegion.map (fun r =>
        { r with children := r.children.eraseP (fun c => c.id == coverId) }) }

/-- Embedding of `Modal.close`, called at time `now` and run to
completion: `disappear()` resolves at `disappearTime`, its `.then`
callback removes the cover, and the promise returned by `close()`
resolves right after.  The returned pair is the resolution time of that
promise and the page state after the removal. -/
def Modal.close (now : Nat) (st : PageState) (m : Modal) : Nat × PageState :=
  (Modal.disappearTime now m, removeCover st m.cover.id)

/-- Embedding of the cover click handler installed by the constructor:
on a click whose target is the content element or nested underneath it
(`isNested`), return without closing; otherwise call `this.close()`.
The handler exists only when `closeOnCoverClick` was enabled.  The
result is whether the click triggers `close()`.  `content` is the node
standing for `this.content`; reference equality with the click target
is id equality. -/
def Modal.coverClickCloses (m : Modal) (content target : DomNode) : Bool :=
  if m.closeOnCoverClick then
    if target.id == content.id || isNested target content then false else true
  else false

/-- One operation performed by calling code on the page: constructing a
Modal with some options, or calling `close()` (run to completion) on the
k-th successfully constructed Modal. -/
inductive Op where
  | construct (o : ModalOptions)
  | close (k : Nat)
deriving DecidableEq, Repr

/-- One step of the page: apply an operation to the page state.  A
successful construction appends the new instance to the caller-held
list; a construction that throws still keeps the side effects its field
initializers performed.  `close` on an index the caller never obtained
is skipped. -/
def step (st : PageState) (op : Op) : PageState :=
  match op with
  | .construct o =>
    let res := Modal.construct st o
    match res.result with
    | .ok m => { res.state with allModals := res.state.allModals ++ [m] }
    | .error _ => res.state
  | .close k =>
    match st.allModals[k]? with
    | some m => (Modal.close 0 st m).2
    | none => st

/-- Run a sequence of operations from a starting page state. -/
def run (st : PageState) (ops : List Op) : PageState := ops.foldl step st

/-- Invariants of every page state reachable by running Modal code:
when no region has been published no Modal has been constructed; the
region container is the first child of the document body; every
constructed Modal holds the published region instance; every direct
child of the region container is the cover of a constructed Modal and
carries its back-reference; child element ids are fresh and pairwise
distinct (each element occurs at most once in the DOM). -/
structure PageInv (st : PageState) : Prop where
  noRegionNoModals : st.windowModalRegion = none → st.allModals = []
  regionFirst : ∀ r, st.windowModalRegion = some r →
    st.bodyChildren.head? = some r.element
  sameRegion : ∀ m ∈ st.allModals, ∀ r, st.windowModalRegion = some r →
    m.regionObjId = r.objId
  childOwned : ∀ r, st.windowModalRegion = some r → ∀ c ∈ r.children,
    ∃ m ∈ st.allModals, m.cover.id = c.id ∧ m.instId = c.modal
  childFresh : ∀ r, st.windowModalRegion = some r → ∀ c ∈ r.children,
    c.id < st.nextId
  childNodup : ∀ r, st.windowModalRegion = some r →
    (r.children.map ModalHtmlElement.id).Nodup

/-- A fresh page satisfies the reachability invariants. -/
theorem inv_init (bs : List Nat) : PageInv (initPage bs) := by
  constructor <;> intros <;> simp_all [initPage]

/-- Erasing the child with a given id removes that id entirely from a
duplicate-free child list. -/
theorem not_mem_map_id_eraseP (l : List ModalHtmlElement) (a : Nat)
    (h : (l.map ModalHtmlElement.id).Nodup) :
    a ∉ (l.eraseP (fun c => c.id == a)).map ModalHtmlElement.id := by
  induction l with
  | nil => simp
  | cons c t ih =>
    rw [List.map_cons, List.nodup_cons] at h
    by_cases hc : c.id = a
    · rw [List.eraseP_cons_of_pos (by simpa using hc)]
      exact hc ▸ h.1
    · rw [List.eraseP_cons_of_neg (by simpa using hc)]
      simp only [List.map_cons, List.mem_cons, not_or]
      exact ⟨fun hy => hc hy.symm, ih h.2⟩

/-- Every page operation preserves the reachability invariants. -/
theorem inv_step (st : PageState) (op : Op) (h : PageInv st) : PageInv (step st op) := by
  cases op with
  | close k =>
    unfold step
    cases hm : st.allModals[k]? with
    | none =>
      simp only [hm]
      exact h
    | some m =>
      simp only [hm, Modal.close, removeCover]
      cases hw : st.windowModalRegion with
      | none =>
        simp only [hw, Option.map_none']
        refine ⟨fun _ => h.noRegionNoModals hw, ?_, ?_, ?_, ?_, ?_⟩ <;>
          intros <;> simp_all
      | some r =>
        simp only [hw, Option.map_some']
        constructor
        · intro hnone; simp at hnone
        · intro r' hr'
          simp only [Option.some.injEq] at hr'
          cases hr'
          simpa using h.regionFirst r hw
        · intro m' hm' r' hr'
          simp only [Option.some.injEq] at hr'
          cases hr'
          simpa using h.sameRegion m' (by simpa using hm') r hw
        · intro r' hr' c hc
          simp only [Option.some.injEq] at hr'
          cases hr'
          simp only at hc
          have := h.childOwned r hw c (List.mem_of_mem_eraseP hc)
          simpa using this
        · intro r' hr' c hc
          simp only [Option.some.injEq] at hr'
          cases hr'
          simp only at hc
          simpa using h.childFresh r hw c (List.mem_of_mem_eraseP hc)
        · intro r' hr'
          simp only [Option.some.injEq] at hr'
          cases hr'
          exact (h.childNodup r hw).sublist ((List.eraseP_sublist _).map _)
  | construct o =>
    simp only [step, Modal.construct, acquireRegion, attachCover]
    cases hw : st.windowModalRegion with
    | some r =>
      by_cases hboth : (o.innerHTML.isSome && o.textContent.isSome) = true
      · rw [if_pos hboth]
        refine ⟨?_, ?_, ?_, ?_, ?_, ?_⟩
        · intro hnone
          exact h.noRegionNoModals hnone
        · intro r' hr'
          exact h.regionFirst r' hr'
        · intro m' hm' r' hr'
          exact h.sameRegion m' hm' r' hr'
        · intro r' hr' c hc
          exact h.childOwned r' hr' c hc
        · intro r' hr' c hc
          exact Nat.lt_of_lt_of_le (h.childFresh r' hr' c hc) (Nat.le_add_right _ 3)
        · intro r' hr'
          exact h.childNodup r' hr'
      · rw [if_neg hboth]
        refine ⟨?_, ?_, ?_, ?_, ?_, ?_⟩
        · intro hnone
          simp [hw] at hnone
        · intro r' hr'
          simp only [hw, Option.map_some'] at hr'
          cases hr'
          exact h.regionFirst r hw
        · intro m' hm' r' hr'
          simp only [hw, Option.map_some'] at hr'
          cases hr'
          rcases List.mem_append.mp hm' with hold | hnew
          · exact h.sameRegion m' hold r hw
          · rw [List.mem_singleton] at hnew
            subst hnew
            rfl
        · intro r' hr' c hc
          simp only [hw, Option.map_some'] at hr'
          cases hr'
          rcases List.mem_append.mp hc with hold | hnew
          · obtain ⟨m', hm', he1, he2⟩ := h.childOwned r hw c hold
            exact ⟨m', List.mem_append_left _ hm', he1, he2⟩
          · rw [List.mem_singleton] at hnew
            subst hnew
            exact ⟨_, List.mem_append_right _ (List.mem_singleton_self _), rfl, rfl⟩
        · intro r' hr' c hc
          simp only [hw, Option.map_some'] at hr'
          cases hr'
          rcases List.mem_append.mp hc with hold | hnew
          · exact Nat.lt_of_lt_of_le (h.childFresh r hw c hold) (Nat.le_add_right _ 3)
          · rw [List.mem_singleton] at hnew
            subst hnew
            show st.nextId + 1 < st.nextId + 3
            omega
        · intro r' hr'
          simp only [hw, Option.map_some'] at hr'
          cases hr'
          show ((r.children ++
            [({ id := st.nextId + 1, modal := st.nextId } : ModalHtmlElement)]).map
              ModalHtmlElement.id).Nodup
          rw [List.map_append, List.nodup_append]
          refine ⟨h.childNodup r hw, by simp, ?_⟩
          intro a ha hb
          simp only [List.map_cons, List.map_nil, List.mem_singleton] at hb
          simp only [List.mem_map] at ha
          obtain ⟨c, hc, hca⟩ := ha
          have := h.childFresh r hw c hc
          omega
    | none =>
      have hmod := h.noRegionNoModals hw
      by_cases hboth : (o.innerHTML.isSome && o.textContent.isSome) = true
      · rw [if_pos hboth]
        refine ⟨?_, ?_, ?_, ?_, ?_, ?_⟩
        · intro hnone
          exact Option.noConfusion (hnone : some _ = none)
        · intro r' hr'
          cases (hr' : some _ = some r')
          rfl
        · intro m' hm' r' hr'
          have hm2 : m' ∈ st.allModals := hm'
          rw [hmod] at hm2
          exact absurd hm2 (List.not_mem_nil m')
        · intro r' hr' c hc
          cases (hr' : some _ = some r')
          exact absurd (hc : c ∈ []) (List.not_mem_nil c)
        · intro r' hr' c hc
          cases (hr' : some _ = some r')
          exact absurd (hc : c ∈ []) (List.not_mem_nil c)
        · intro r' hr'
          cases (hr' : some _ = some r')
          exact List.nodup_nil
      · rw [if_neg hboth]
        refine ⟨?_, ?_, ?_, ?_, ?_, ?_⟩
        · intro hnone
          exact Option.noConfusion (hnone : some _ = none)
        · intro r' hr'
          cases (hr' : some _ = some r')
          rfl
        · intro m' hm' r' hr'
          cases (hr' : some _ = some r')
          rcases List.mem_append.mp hm' with hold | hnew
          · rw [hmod] at hold
            exact absurd hold (List.not_mem_nil m')
          · rw [List.mem_singleton] at hnew
            subst hnew
            rfl
        · intro r' hr' c hc
          cases (hr' : some _ = some r')
          rcases List.mem_append.mp hc with hold | hnew
          · exact absurd (hold : c ∈ []) (List.not_mem_nil c)
          · rw [List.mem_singleton] at hnew
            subst hnew
            exact ⟨_, List.mem_append_right _ (List.mem_singleton_self _), rfl, rfl⟩
        · intro r' hr' c hc
          cases (hr' : some _ = some r')
          rcases List.mem_append.mp hc with hold | hnew
          · exact absurd (hold : c ∈ []) (List.not_mem_nil c)
          · rw [List.mem_singleton] at hnew
            subst hnew
            show st.nextId + 2 + 1 < st.nextId + 2 + 3
            omega
        · intro r' hr'
          cases (hr' : some _ = some r')
          exact List.nodup_singleton _

/-- Every state reachable from a state satisfying the invariants
satisfies them. -/
theorem inv_run (st : PageState) (ops : List Op) (h : PageInv st) : PageInv (run st ops) := by
  induction ops generalizing st with
  | nil => exact h
  | cons op rest ih => exact ih _ (inv_step st op h)

/-- The current direct children of the region container, or the empty
list when no region has been created yet.  This is the DOM view the
modals query is computed from. -/
def regionChildren (st : PageState) : List ModalHtmlElement :=
  match st.windowModalRegion with
  | some r => r.children
  | none => []

/-- C1: for every options record in which both the text content field and
the inner markup field are set to non-empty values, Modal construction
throws the configuration error; for every options record lacking both
fields, construction succeeds and the content box is empty (no text, no
markup). -/
theorem modal_construct_content_options :
    (∀ (st : PageState) (o : ModalOptions) (t u : String),
      o.textContent = some t → o.innerHTML = some u → t ≠ "" → u ≠ "" →
      ∃ msg, (Modal.construct st o).result = Except.error msg)
    ∧ (∀ (st : PageState) (o : ModalOptions),
      o.textContent = none → o.innerHTML = none →
      ∃ m, (Modal.construct st o).result = Except.ok m
        ∧ m.content.innerText = "" ∧ m.content.textContent = ""
        ∧ m.content.innerHTML = "") := by
  constructor
  · intro st o t u ht hu _ _
    simp only [Modal.construct]
    rw [if_pos (by simp [ht, hu])]
    exact ⟨_, rfl⟩
  · intro st o ht hu
    simp only [Modal.construct]
    rw [if_neg (by simp [hu])]
    simp only [ht, hu]
    exact ⟨_, rfl, rfl, rfl, rfl⟩

/-- C1 witness: both branches of the property at concrete inputs. -/
theorem modal_construct_content_options_witness :
    (∃ msg, (Modal.construct (initPage [])
        { textContent := some "a", innerHTML := some "b" }).result
      = Except.error msg)
    ∧ (∃ m, (Modal.construct (initPage []) ({} : ModalOptions)).result
        = Except.ok m
        ∧ m.content.innerText = "" ∧ m.content.textContent = ""
        ∧ m.content.innerHTML = "") :=
  ⟨modal_construct_content_options.1 (initPage []) _ "a" "b" rfl rfl
      (by decide) (by decide),
   modal_construct_content_options.2 (initPage []) {} rfl rfl⟩

/-- C2 (divergence witness): constructing with the spec end-to-end input
`\x7btextContent: "Hello", animationTime: 0\x7d` yields a Modal whose
animation duration is the default 250 and whose fade is active — not
duration 0 with transitions disabled.  The constructor reads
`options.animationTime` but guards on the legacy key `"fadeTime"`
(`("fadeTime" in options) ? options.animationTime : 250`), which the
declared options interface does not even contain, contradicting the
documented meaning of `animationTime`. -/
theorem modal_construct_animationTime_ignored :
    ((Modal.construct (initPage [])
        { textContent := some "Hello", animationTime := some 0 }).result.toOption.map
      Modal.animationTime) = some (some 250)
    ∧ ((Modal.construct (initPage [])
        { textContent := some "Hello", animationTime := some 0 }).result.toOption.map
      Modal.fadeActive) = some true :=
  ⟨rfl, rfl⟩

/-- C3 counterexample: constructing on a fresh page with both text and
markup set throws the configuration error, yet elements had already been
created (region container 0, cover 3, content 4) and the document body
had already been mutated (the region container was inserted as its
first child): the class field initializers run before the constructor
body performs the check, so partial state is left behind. -/
theorem modal_construct_error_side_effects :
    (∃ msg, (Modal.construct (initPage [])
        { textContent := some "a", innerHTML := some "b" }).result
      = Except.error msg)
    ∧ (Modal.construct (initPage [])
        { textContent := some "a", innerHTML := some "b" }).state.allElems = [0, 3, 4]
    ∧ (Modal.construct (initPage [])
        { textContent := some "a", innerHTML := some "b" }).state.bodyChildren = [0] :=
  ⟨⟨_, rfl⟩, rfl, rfl⟩

/-- C3 amended: with both text content and inner markup supplied, the
configuration error is raised synchronously before any content
assignment, before the content is appended into the cover, and before
the cover is attached to the region — the region gains no child — but
the region (on a first construction), the cover and the content
elements have already been created by the field initializers. -/
theorem modal_construct_error_before_assignment_and_attach
    (st : PageState) (o : ModalOptions)
    (ht : o.textContent ≠ none) (hu : o.innerHTML ≠ none) :
    (∃ msg, (Modal.construct st o).result = Except.error msg)
    ∧ CtorEvent.textAssigned ∉ (Modal.construct st o).events
    ∧ CtorEvent.htmlAssigned ∉ (Modal.construct st o).events
    ∧ CtorEvent.contentAppended ∉ (Modal.construct st o).events
    ∧ CtorEvent.coverAppended ∉ (Modal.construct st o).events
    ∧ CtorEvent.coverCreated ∈ (Modal.construct st o).events
    ∧ CtorEvent.contentCreated ∈ (Modal.construct st o).events
    ∧ regionChildren (Modal.construct st o).state = regionChildren st := by
  have hb : (o.innerHTML.isSome && o.textContent.isSome) = true := by
    rcases Option.ne_none_iff_exists.mp ht with ⟨t, ht2⟩
    rcases Option.ne_none_iff_exists.mp hu with ⟨u, hu2⟩
    simp [← ht2, ← hu2]
  cases hw : st.windowModalRegion with
  | some r0 =>
    simp only [Modal.construct, acquireRegion, hw]
    rw [if_pos hb]
    refine ⟨⟨_, rfl⟩, by simp, by simp, by simp, by simp, by simp,
      by simp, ?_⟩
    simp [regionChildren, hw]
  | none =>
    simp only [Modal.construct, acquireRegion, hw]
    rw [if_pos hb]
    refine ⟨⟨_, rfl⟩, by simp, by simp, by simp, by simp, by simp,
      by simp, ?_⟩
    simp [regionChildren, hw]

/-- C3 amended witness: the amended property at the concrete failing
input on a fresh page. -/
theorem modal_construct_error_before_assignment_and_attach_witness :
    regionChildren (Modal.construct (initPage [])
        { textContent := some "a", innerHTML := some "b" }).state
      = regionChildren (initPage []) :=
  (modal_construct_error_before_assignment_and_attach (initPage [])
    { textContent := some "a", innerHTML := some "b" }
    (by decide) (by decide)).2.2.2.2.2.2.2

/-- C4: in every reachable page state that has a region, the modals query
returns the back-referenced owner of each direct child of the region
container, in DOM order, recomputed from the live children; its length
equals the number of currently attached covers; and every attached
child is the cover of a constructed Modal carrying the back-reference
stored at its creation. -/
theorem modalRegion_modals_children (bs : List Nat) (ops : List Op)
    (r : ModalRegion)
    (hr : (run (initPage bs) ops).windowModalRegion = some r) :
    r.modals = r.children.map (fun c => c.modal)
    ∧ r.modals.length = r.children.length
    ∧ ∀ c ∈ r.children, ∃ m ∈ (run (initPage bs) ops).allModals,
        m.cover.id = c.id ∧ c.modal = m.instId := by
  have hinv := inv_run (initPage bs) ops (inv_init bs)
  refine ⟨rfl, by simp [ModalRegion.modals], ?_⟩
  intro c hc
  obtain ⟨m, hm, h1, h2⟩ := hinv.childOwned r hr c hc
  exact ⟨m, hm, h1, h2.symm⟩

/-- C4 witness: the query property on the page after one construction. -/
theorem modalRegion_modals_children_witness :
    (ModalRegion.modals ⟨1, 0, [⟨3, 2⟩]⟩).length
      = (([⟨3, 2⟩] : List ModalHtmlElement)).length :=
  (modalRegion_modals_children [] [Op.construct {}] ⟨1, 0, [⟨3, 2⟩]⟩ rfl).2.1

/-- C5: over every sequence of operations on a page, all constructed
Modals hold the identical ModalRegion instance — the one published on
the window — and the region container element stays the first child of
the document body. -/
theorem modal_single_region_first_child (bs : List Nat) (ops : List Op) :
    (∀ m1 ∈ (run (initPage bs) ops).allModals,
      ∀ m2 ∈ (run (initPage bs) ops).allModals, m1.regionObjId = m2.regionObjId)
    ∧ ∀ r, (run (initPage bs) ops).windowModalRegion = some r →
        ((run (initPage bs) ops).bodyChildren.head? = some r.element
         ∧ ∀ m ∈ (run (initPage bs) ops).allModals, m.regionObjId = r.objId) := by
  have hinv := inv_run (initPage bs) ops (inv_init bs)
  constructor
  · intro m1 h1 m2 h2
    cases hw : (run (initPage bs) ops).windowModalRegion with
    | none =>
      rw [hinv.noRegionNoModals hw] at h1
      exact absurd h1 (List.not_mem_nil m1)
    | some r =>
      rw [hinv.sameRegion m1 h1 r hw, hinv.sameRegion m2 h2 r hw]
  · intro r hr
    exact ⟨hinv.regionFirst r hr, fun m hm => hinv.sameRegion m hm r hr⟩

/-- C5 witness: after two constructions the region container is still
the first child of the body. -/
theorem modal_single_region_first_child_witness :
    (run (initPage []) [Op.construct {}, Op.construct {}]).bodyChildren.head?
      = some 0 :=
  ((modal_single_region_first_child [] [Op.construct {}, Op.construct {}]).2
    ⟨1, 0, [⟨3, 2⟩, ⟨6, 5⟩]⟩ rfl).1

/-- C6: a click whose target is the content element or any node nested
under it never triggers close(); a click whose target is outside the
content subtree (in particular the cover itself) triggers close()
exactly when dismiss-on-cover-click is enabled; and when the option is
absent the constructed Modal has it enabled (the default). -/
theorem modal_cover_click_behavior :
    (∀ (m : Modal) (content target : DomNode),
      target.id = content.id ∨ isNested target content = true →
      m.coverClickCloses content target = false)
    ∧ (∀ (m : Modal) (content target : DomNode),
      target.id ≠ content.id → isNested target content = false →
      m.coverClickCloses content target = m.closeOnCoverClick)
    ∧ (∀ (st : PageState) (o : ModalOptions) (m : Modal),
      (Modal.construct st o).result = Except.ok m →
      o.closeOnCoverClick = none → m.closeOnCoverClick = true) := by
  refine ⟨?_, ?_, ?_⟩
  · intro m content target hin
    unfold Modal.coverClickCloses
    rw [show (target.id == content.id || isNested target content) = true by
      rcases hin with hid | hn
      · simp [hid]
      · simp [hn]]
    cases m.closeOnCoverClick <;> rfl
  · intro m content target h1 h2
    unfold Modal.coverClickCloses
    rw [show (target.id == content.id || isNested target content) = false by
      simp [h1, h2]]
    cases hf : m.closeOnCoverClick <;> simp
  · intro st o m hok hnone
    unfold Modal.construct at hok
    by_cases hboth : (o.innerHTML.isSome && o.textContent.isSome) = true
    · rw [if_pos hboth] at hok
      exact absurd hok (by simp)
    · rw [if_neg hboth] at hok
      simp only [Except.ok.injEq] at hok
      subst hok
      show o.closeOnCoverClick.getD true = true
      rw [hnone]
      rfl

/-- C6 witness: all three parts at concrete inputs (content element id 4
inside a cover id 3; a nested target id 9; the cover as target). -/
theorem modal_cover_click_behavior_witness :
    (Modal.coverClickCloses
        { instId := 2, regionObjId := 1, cover := ⟨3, 2⟩,
          content := ⟨4, "", "", ""⟩, animationTime := some 250,
          closeOnCoverClick := true }
        (DomNode.root 4) (DomNode.node 9 (DomNode.root 4)) = false)
    ∧ (Modal.coverClickCloses
        { instId := 2, regionObjId := 1, cover := ⟨3, 2⟩,
          content := ⟨4, "", "", ""⟩, animationTime := some 250,
          closeOnCoverClick := true }
        (DomNode.root 4) (DomNode.root 3) = true)
    ∧ ({ instId := 2, regionObjId := 1, cover := ⟨3, 2⟩,
          content := ⟨4, "", "", ""⟩, animationTime := some 250,
          closeOnCoverClick := true } : Modal).closeOnCoverClick = true :=
  ⟨modal_cover_click_behavior.1 _ (DomNode.root 4) (DomNode.node 9 (DomNode.root 4))
      (Or.inr (by decide)),
   modal_cover_click_behavior.2.1 _ (DomNode.root 4) (DomNode.root 3)
      (by decide) (by decide),
   modal_cover_click_behavior.2.2 (initPage []) {} _ rfl rfl⟩

/-- C7: for every Modal with animation duration d > 0, the promise
returned by close() resolves exactly at now + d — never earlier — and
immediately after resolution the cover element is absent from the
region children, so the modals query no longer contains it. -/
theorem modal_close_after_duration (now : Nat) (st : PageState) (m : Modal)
    (d : Nat) (hd : m.animationTime = some d) (hpos : 0 < d)
    (hnodup : ∀ r0, st.windowModalRegion = some r0 →
      (r0.children.map ModalHtmlElement.id).Nodup) :
    (Modal.close now st m).1 = now + d
    ∧ now + d ≤ (Modal.close now st m).1
    ∧ ∀ r, (Modal.close now st m).2.windowModalRegion = some r →
        m.cover.id ∉ r.children.map ModalHtmlElement.id := by
  have hfade : m.fadeActive = true := by simp [Modal.fadeActive, hd, hpos]
  have h1 : (Modal.close now st m).1 = now + d := by
    simp [Modal.close, Modal.disappearTime, hfade, hd]
  refine ⟨h1, le_of_eq h1.symm, ?_⟩
  intro r hr
  simp only [Modal.close, removeCover] at hr
  cases hw : st.windowModalRegion with
  | none =>
    rw [hw] at hr
    simp at hr
  | some r0 =>
    rw [hw] at hr
    simp only [Option.map_some'] at hr
    cases hr
    exact not_mem_map_id_eraseP r0.children m.cover.id (hnodup r0 hw)

/-- C7 witness: closing at time 7 a Modal with duration 250 attached to
a region holding its cover. -/
theorem modal_close_after_duration_witness :
    (Modal.close 7
        { nextId := 5, bodyChildren := [0],
          windowModalRegion := some ⟨1, 0, [⟨3, 2⟩]⟩,
          allModals := [], allElems := [0, 3, 4] }
        { instId := 2, regionObjId := 1, cover := ⟨3, 2⟩,
          content := ⟨4, "", "", ""⟩, animationTime := some 250,
          closeOnCoverClick := true }).1 = 7 + 250 :=
  (modal_close_after_duration 7
    { nextId := 5, bodyChildren := [0],
      windowModalRegion := some ⟨1, 0, [⟨3, 2⟩]⟩,
      allModals := [], allElems := [0, 3, 4] }
    { instId := 2, regionObjId := 1, cover := ⟨3, 2⟩,
      content := ⟨4, "", "", ""⟩, animationTime := some 250,
      closeOnCoverClick := true }
    250 rfl (by decide)
    (by intro r0 h0; cases h0; decide)).1

/-- C8: for every Modal whose animation duration is 0, appear() returns
an already resolved promise and performs no style write whatsoever:
neither opacity nor transition is touched, synchronously or in a
deferred tick, so the cover is immediately fully visible. -/
theorem modal_appear_zero_duration (m : Modal)
    (h : m.animationTime = some 0) :
    (Modal.appear m).resolvedImmediately = true
    ∧ (Modal.appear m).syncStyleWrites = []
    ∧ (Modal.appear m).deferredStyleWrites = [] := by
  have hfade : m.fadeActive = false := by simp [Modal.fadeActive, h]
  simp [Modal.appear, hfade]

/-- C8 witness: appear() on a concrete Modal with duration 0. -/
theorem modal_appear_zero_duration_witness :
    (Modal.appear
        { instId := 2, regionObjId := 1, cover := ⟨3, 2⟩,
          content := ⟨4, "", "", ""⟩, animationTime := some 0,
          closeOnCoverClick := true }).resolvedImmediately = true :=
  (modal_appear_zero_duration _ rfl).1

/-- C9: within every successful Modal construction, the appear() call is
initiated immediately before the cover is appended to the region
container (both in the synchronous constructor trace), and the
construction does not wait for appear() to complete: when the fade is
active, the tick that finishes appear() is still pending in the timer
queue when the constructor — having already attached the cover —
returns. -/
theorem modal_appear_initiated_before_attach (st : PageState)
    (o : ModalOptions) (m : Modal)
    (hok : (Modal.construct st o).result = Except.ok m) :
    (∃ l, (Modal.construct st o).events
        = l ++ [CtorEvent.appearInitiated, CtorEvent.coverAppended])
    ∧ (m.fadeActive = true →
        (Modal.construct st o).timers
          = [(0, TimerAction.appearTick m.cover.id)]) := by
  unfold Modal.construct at hok ⊢
  by_cases hboth : (o.innerHTML.isSome && o.textContent.isSome) = true
  · rw [if_pos hboth] at hok
    exact absurd hok (by simp)
  · rw [if_neg hboth] at hok ⊢
    simp only [Except.ok.injEq] at hok
    subst hok
    refine ⟨⟨_, rfl⟩, ?_⟩
    intro hfade
    simp only [hfade]
    rfl

/-- C9 witness: the ordering property on a default construction. -/
theorem modal_appear_initiated_before_attach_witness :
    ∃ l, (Modal.construct (initPage []) ({} : ModalOptions)).events
      = l ++ [CtorEvent.appearInitiated, CtorEvent.coverAppended] :=
  (modal_appear_initiated_before_attach (initPage []) {}
    { instId := 2, regionObjId := 1, cover := ⟨3, 2⟩,
      content := ⟨4, "", "", ""⟩, animationTime := some 250,
      closeOnCoverClick := true } rfl).1

/-- C10: calling close() on a Modal whose cover is already detached from
the region resolves normally (at the disappear resolution time) and
leaves the page — in particular the region child list read by the
modals query — unchanged: removing an already-detached cover is a
no-op. -/
theorem modal_double_close_noop (now : Nat) (st : PageState) (m : Modal)
    (h : ∀ r, st.windowModalRegion = some r →
      m.cover.id ∉ r.children.map ModalHtmlElement.id) :
    (Modal.close now st m).2 = st
    ∧ (Modal.close now st m).1 = Modal.disappearTime now m := by
  refine ⟨?_, rfl⟩
  simp only [Modal.close, removeCover]
  obtain ⟨a, b, c, d, e⟩ := st
  cases c with
  | none => simp
  | some r =>
    have hni := h r rfl
    obtain ⟨x, y, z⟩ := r
    have herase : z.eraseP (fun c => c.id == ModalHtmlElement.id m.cover) = z := by
      apply List.eraseP_of_forall_not
      intro c hc
      simp only [beq_iff_eq]
      intro heq
      exact hni (List.mem_map.mpr ⟨c, hc, heq⟩)
    simp [herase]

/-- C10 witness: a second close() after the cover was already removed
leaves the state unchanged. -/
theorem modal_double_close_noop_witness :
    (Modal.close 9
        { nextId := 5, bodyChildren := [0],
          windowModalRegion := some ⟨1, 0, []⟩,
          allModals := [], allElems := [0, 3, 4] }
        { instId := 2, regionObjId := 1, cover := ⟨3, 2⟩,
          content := ⟨4, "", "", ""⟩, animationTime := some 250,
          closeOnCoverClick := true }).2
      = { nextId := 5, bodyChildren := [0],
          windowModalRegion := some ⟨1, 0, []⟩,
          allModals := [], allElems := [0, 3, 4] } :=
  (modal_double_close_noop 9
    { nextId := 5, bodyChildren := [0],
      windowModalRegion := some ⟨1, 0, []⟩,
      allModals := [], allElems := [0, 3, 4] }
    { instId := 2, regionObjId := 1, cover := ⟨3, 2⟩,
      content := ⟨4, "", "", ""⟩, animationTime := some 250,
      closeOnCoverClick := true }
    (by intro r h0; cases h0; decide)).1
